import Mathlib

/-!
Shallow embedding of the drawing-canvas engine of
`src/src/components/Whiteboard.tsx` (a React whiteboard component).

JS numbers used as canvas coordinates are modelled as `Int`; optional
(`undefined`-able) fields of the duck-typed `DrawElement` record are
modelled as `Option`; JS string truthiness (null and the empty string are
falsy) and number
truthiness (`undefined`/`0` falsy) are modelled explicitly.  The React
`useState` cells that the pointer handlers read and write are collected in
one state record `WB`; each handler is a function `WB → ... → WB` whose
body transcribes the source handler (setState calls become field updates;
values read from the closure are the pre-event field values, which matches
the React semantics of reading stale state within one event handler).
-/

namespace Whiteboard

/-- A 2D point, as in `points?: { x: number; y: number }[]`. -/
structure Point where
  x : Int
  y : Int
deriving DecidableEq, Repr

/-- The `type` tag of a `DrawElement`
(one of line, image, text, shape, sticky). -/
inductive ElemType where
  | line
  | image
  | text
  | shape
  | sticky
deriving DecidableEq, Repr

/-- The `DrawElement` record type of `Whiteboard.tsx` (lines 50-69).
All fields except `type` are optional in the source. -/
structure DrawElement where
  type : ElemType
  id : Option String := none
  points : Option (List Point) := none
  color : Option String := none
  strokeWidth : Option Int := none
  imageData : Option String := none
  x : Option Int := none
  y : Option Int := none
  width : Option Int := none
  height : Option Int := none
  text : Option String := none
  fontSize : Option Int := none
  shapeType : Option String := none
  startX : Option Int := none
  startY : Option Int := none
  endX : Option Int := none
  endY : Option Int := none
  layer : Option Nat := none
deriving DecidableEq, Repr

/-- JS string truthiness: null and the empty string are falsy, every other string truthy. -/
def truthyStr (o : Option String) : Bool :=
  match o with
  | none => false
  | some t => decide (t ≠ "")

/-- JS number falsiness test as used in the hit testers
(`!element.x` etc.): `undefined` and `0` are falsy. -/
def falsyNum (o : Option Int) : Bool :=
  match o with
  | none => true
  | some v => decide (v = 0)

/-- `(el.layer || 0)` — the layer tag with JS default 0
(`0 || 0 = 0`, so `getD 0` is an exact model). -/
def layerOf (el : DrawElement) : Nat := el.layer.getD 0

/-- The component state cells relevant to the claims
(`useState` declarations, lines 92-119). -/
structure WB where
  tool : String := "pen"
  color : String := "#000000"
  strokeWidth : Int := 3
  isDrawing : Bool := false
  elements : List DrawElement := []
  currentElement : Option DrawElement := none
  history : List (List DrawElement) := []
  historyStep : Nat := 0
  selectedElement : Option String := none
  dragOffset : Point := ⟨0, 0⟩
  resizeHandle : Option String := none
  currentLayer : Nat := 0
  layers : List String := ["Layer 1"]
deriving DecidableEq, Repr

/-- The initial component state (the `useState` initialisers):
empty canvas, empty history, cursor 0, tool `pen`, one layer. -/
def initWB : WB := {}

/-- The snapshot-push pattern shared by every committing mutation
(e.g. lines 578-580):
`setHistory([...history.slice(0, historyStep + 1), newElements]);
 setHistoryStep(historyStep + 1);` together with `setElements(newElements)`.
`slice(0, n)` is `take n`. -/
def pushCommit (s : WB) (newElements : List DrawElement) : WB :=
  { s with
    elements := newElements,
    history := s.history.take (s.historyStep + 1) ++ [newElements],
    historyStep := s.historyStep + 1 }

/-- `handleUndo` (lines 626-631).  `history[historyStep - 1] || []` only
falls back to `[]` when the index is out of range (a present empty array is
truthy in JS), which is exactly `(get? _).getD []`. -/
def handleUndo (s : WB) : WB :=
  if 0 < s.historyStep then
    { s with
      historyStep := s.historyStep - 1,
      elements := (s.history.get? (s.historyStep - 1)).getD [] }
  else s

/-- `handleRedo` (lines 633-638).  The JS guard is
`historyStep < history.length - 1`; for `historyStep ≥ 0` this agrees with
the `Nat`-subtraction guard used here (when `history.length = 0` both
guards are false). -/
def handleRedo (s : WB) : WB :=
  if s.historyStep < s.history.length - 1 then
    { s with
      historyStep := s.historyStep + 1,
      elements := (s.history.get? (s.historyStep + 1)).getD [] }
  else s

/-- `isPointInImage` (lines 407-411): rejects elements with a falsy
`x`/`y`/`width`/`height`, then an axis-aligned containment test. -/
def isPointInImage (px py : Int) (el : DrawElement) : Bool :=
  if falsyNum el.x || falsyNum el.y || falsyNum el.width || falsyNum el.height then
    false
  else
    decide (el.x.getD 0 ≤ px) && decide (px ≤ el.x.getD 0 + el.width.getD 0) &&
    decide (el.y.getD 0 ≤ py) && decide (py ≤ el.y.getD 0 + el.height.getD 0)

/-- `isPointInResizeHandle` (lines 413-420): same falsy-field rejection,
then a ±16-unit square around the bottom-right corner. -/
def isPointInResizeHandle (px py : Int) (el : DrawElement) : Bool :=
  if falsyNum el.x || falsyNum el.y || falsyNum el.width || falsyNum el.height then
    false
  else
    let handleSize : Int := 16
    let handleX := el.x.getD 0 + el.width.getD 0
    let handleY := el.y.getD 0 + el.height.getD 0
    decide (handleX - handleSize ≤ px) && decide (px ≤ handleX + handleSize) &&
    decide (handleY - handleSize ≤ py) && decide (py ≤ handleY + handleSize)

/-- The filter predicate of the select-tool scan (line 426):
type is image or sticky, and the layer tag (default 0) equals the active layer. -/
def qualifies (cl : Nat) (el : DrawElement) : Bool :=
  (decide (el.type = ElemType.image) || decide (el.type = ElemType.sticky)) &&
  decide (layerOf el = cl)

/-- The net boolean of the find callback (lines 427-432): the callback
returns `true` on a resize-handle hit and otherwise the body test. -/
def hitBy (px py : Int) (el : DrawElement) : Bool :=
  isPointInResizeHandle px py el || isPointInImage px py el

/-- The select-tool scan (line 426):
`elements.filter(...).reverse().find(...)`. -/
def selectScan (s : WB) (px py : Int) : Option DrawElement :=
  ((s.elements.filter (qualifies s.currentLayer)).reverse).find? (hitBy px py)

/-- `SHAPES.some(sh => sh.tool === tool)` over the `SHAPES` table (lines 39-48). -/
def isShapeTool (t : String) : Bool :=
  ["rectangle", "circle", "triangle", "star", "pentagon", "hexagon", "arrow", "line"].contains t

/-- `handleMouseDown` (lines 422-516).  External inputs are made explicit:
`promptRes` is the result of `prompt(...)` (`none` = cancel) and `newId`
the `Date.now().toString()` identifier.  In the select branch the
`setResizeHandle`/`setSelectedElement` calls inside the find callback fire
exactly for the found element when its handle test passed, and
`if (!resizeHandle)` reads the pre-event value of `resizeHandle` (React
closure semantics). -/
def handleMouseDown (s : WB) (px py : Int) (promptRes : Option String) (newId : String) : WB :=
  if s.tool = "select" then
    match selectScan s px py with
    | some el =>
      { s with
        selectedElement := some (el.id.getD ""),
        resizeHandle :=
          if isPointInResizeHandle px py el then some (el.id.getD "") else s.resizeHandle,
        dragOffset :=
          if truthyStr s.resizeHandle then s.dragOffset
          else ⟨px - el.x.getD 0, py - el.y.getD 0⟩,
        isDrawing := true }
    | none => { s with selectedElement := none }
  else if s.tool = "text" then
    if truthyStr promptRes then
      pushCommit s (s.elements ++
        [{ type := ElemType.text, id := some newId, text := promptRes,
           x := some px, y := some py, color := some s.color,
           fontSize := some 24, layer := some s.currentLayer }])
    else s
  else if s.tool = "sticky" then
    pushCommit s (s.elements ++
      [{ type := ElemType.sticky, id := some newId, text := some (promptRes.getD ""),
         x := some px, y := some py, width := some 200, height := some 200,
         layer := some s.currentLayer }])
  else if s.tool = "pen" ∨ s.tool = "eraser" then
    { s with
      isDrawing := true,
      currentElement := some
        { type := ElemType.line,
          points := some [⟨px, py⟩],
          color := some (if s.tool = "eraser" then "#ffffff" else s.color),
          strokeWidth := some (if s.tool = "eraser" then s.strokeWidth * 3 else s.strokeWidth),
          layer := some s.currentLayer } }
  else if isShapeTool s.tool then
    { s with
      isDrawing := true,
      currentElement := some
        { type := ElemType.shape, shapeType := some s.tool,
          startX := some px, startY := some py, endX := some px, endY := some py,
          color := some s.color, strokeWidth := some s.strokeWidth,
          layer := some s.currentLayer } }
  else s

/-- `handleMouseMove` (lines 518-564): the select drag/resize branch, the
`!isDrawing || !currentElement` guard, then freehand-point accumulation or
shape end-point update. -/
def handleMouseMove (s : WB) (px py : Int) : WB :=
  if s.tool = "select" ∧ s.isDrawing = true ∧ truthyStr s.selectedElement = true then
    match s.elements.find? (fun el => decide (el.id = some (s.selectedElement.getD ""))) with
    | some element =>
      if element.type = ElemType.image ∨ element.type = ElemType.sticky then
        if truthyStr s.resizeHandle then
          { s with
            elements := s.elements.map (fun el =>
              if el.id = some (s.selectedElement.getD "") then
                { el with
                  width := some (max 50 (px - el.x.getD 0)),
                  height := some (max 50 (py - el.y.getD 0)) }
              else el) }
        else
          { s with
            elements := s.elements.map (fun el =>
              if el.id = some (s.selectedElement.getD "") then
                { el with
                  x := some (px - s.dragOffset.x),
                  y := some (py - s.dragOffset.y) }
              else el) }
      else s
    | none => s
  else if s.isDrawing = false ∨ s.currentElement = none then s
  else if s.tool = "pen" ∨ s.tool = "eraser" then
    { s with
      currentElement :=
        match s.currentElement with
        | some elem =>
          match elem.points with
          | some pts => some { elem with points := some (pts ++ [⟨px, py⟩]) }
          | none => none
        | none => none }
  else if isShapeTool s.tool then
    { s with
      currentElement :=
        match s.currentElement with
        | some elem => some { elem with endX := some px, endY := some py }
        | none => none }
  else s

/-- `handleMouseUp` (lines 566-584): close a select gesture (snapshot the
unchanged array) or commit the in-progress element and snapshot. -/
def handleMouseUp (s : WB) : WB :=
  if s.tool = "select" ∧ truthyStr s.selectedElement = true ∧ s.isDrawing = true then
    { (pushCommit s s.elements) with isDrawing := false, resizeHandle := none }
  else
    match s.currentElement with
    | some c =>
      if s.isDrawing then
        { (pushCommit s (s.elements ++ [c])) with currentElement := none, isDrawing := false }
      else s
    | none => s

/-- `deleteLayer` (lines 812-824).  `layers.filter((_, i) => i !== index)`
removes exactly the entry at position `index`, i.e. `List.eraseIdx`. -/
def deleteLayer (s : WB) (index : Nat) : WB :=
  if s.layers.length = 1 then s
  else
    let newLayers := s.layers.eraseIdx index
    { s with
      layers := newLayers,
      currentLayer :=
        if newLayers.length ≤ s.currentLayer then newLayers.length - 1 else s.currentLayer,
      elements := s.elements.filter (fun el => decide (layerOf el ≠ index)) }

/-- The broadcast `draw` subscription callback (lines 1130-1133):
`setElements((prev) => [...prev, payload.payload])`. -/
def receiveDraw (prevElements : List DrawElement) (payload : DrawElement) : List DrawElement :=
  prevElements ++ [payload]

/-- One operation issued against the drawable surface by the renderer. -/
inductive PaintOp where
  | clearOp
  | backgroundOp
  | elemOp (el : DrawElement)
deriving DecidableEq, Repr

/-- `redrawCanvas` (lines 310-393) abstracted to the sequence of surface
operations it issues: `clearRect`, the white background `fillRect`, then
one per-element draw for each element of
`[...visibleElements, ...(currentElement ? [currentElement] : [])]`
in that order, where `visibleElements` filters to the active layer. -/
def redrawCanvas (elements : List DrawElement) (currentElement : Option DrawElement)
    (cl : Nat) : List PaintOp :=
  let visibleElements := elements.filter (fun el => decide (layerOf el = cl))
  [PaintOp.clearOp, PaintOp.backgroundOp] ++
    (visibleElements ++ currentElement.toList).map PaintOp.elemOp

/-- After any mutation that leaves the cursor at or beyond the last
history index, `handleRedo` is the identity (its guard
`historyStep < history.length - 1` fails). -/
theorem handleRedo_eq_of_cursor_high (t : WB) (ht : t.history.length ≤ t.historyStep + 1) :
    handleRedo t = t := by
  unfold handleRedo
  rw [if_neg (by omega)]

/-- C1: the spec claims that from the initial empty canvas, N commits
followed by N `undo()` calls return Canvas State to the initial empty
array.  The code violates this already at N = 1: the initial empty
snapshot is never placed in `history`, so after one pen commit a single
`undo()` leaves the committed stroke in place (Canvas State unchanged and
non-empty) instead of restoring the empty array. -/
theorem undo_after_one_commit_not_empty :
    (handleUndo (handleMouseUp (handleMouseDown initWB 0 0 none "a"))).elements =
      (handleMouseUp (handleMouseDown initWB 0 0 none "a")).elements ∧
    (handleUndo (handleMouseUp (handleMouseDown initWB 0 0 none "a"))).elements ≠ [] := by
  decide

/-- C2: the spec claims `0 ≤ step < history.length` after every
snapshot-pushing mutation, and in particular `step == 0` after the first
commit (a pen stroke with 3 points) on an empty canvas.  The code yields
`history.length = 1`, element count 1, but `historyStep = 1`, violating
`step < history.length` (and `step == 0`). -/
theorem first_commit_cursor_out_of_range :
    (handleMouseUp (handleMouseMove (handleMouseMove
        (handleMouseDown initWB 0 0 none "a") 1 1) 2 2)).history.length = 1 ∧
    (handleMouseUp (handleMouseMove (handleMouseMove
        (handleMouseDown initWB 0 0 none "a") 1 1) 2 2)).elements.length = 1 ∧
    (handleMouseUp (handleMouseMove (handleMouseMove
        (handleMouseDown initWB 0 0 none "a") 1 1) 2 2)).historyStep = 1 ∧
    ¬ (handleMouseUp (handleMouseMove (handleMouseMove
        (handleMouseDown initWB 0 0 none "a") 1 1) 2 2)).historyStep <
      (handleMouseUp (handleMouseMove (handleMouseMove
        (handleMouseDown initWB 0 0 none "a") 1 1) 2 2)).history.length := by
  decide

/-- C4: after `undo()` (from any state with `step > 0`) followed by a new
commit, `redo()` is a no-op: both for the bare snapshot-push performed by
every committing mutation and for a full pen-stroke commit gesture
(`handleMouseDown` then `handleMouseUp` with the pen tool), the subsequent
`handleRedo` returns the state unchanged, so the discarded branch is
unreachable and Canvas State is untouched. -/
theorem redo_noop_after_undo_then_commit (s : WB) (snap : List DrawElement)
    (px py : Int) (nid : String) (h : 0 < s.historyStep) (hp : s.tool = "pen") :
    handleRedo (pushCommit (handleUndo s) snap) = pushCommit (handleUndo s) snap ∧
    handleRedo (handleMouseUp (handleMouseDown (handleUndo s) px py none nid)) =
      handleMouseUp (handleMouseDown (handleUndo s) px py none nid) := by
  constructor
  · apply handleRedo_eq_of_cursor_high
    unfold handleUndo
    rw [if_pos h]
    unfold pushCommit
    simp only [List.length_append, List.length_take, List.length_cons, List.length_nil]
    omega
  · apply handleRedo_eq_of_cursor_high
    unfold handleUndo
    rw [if_pos h]
    simp only [handleMouseDown, handleMouseUp, pushCommit, hp]
    simp [List.length_take]

/-- A concrete reachable state with `historyStep > 0` and the pen tool
active: one commit has happened (an empty snapshot in history). -/
def c4State : WB := { initWB with history := [[]], historyStep := 1 }

/-- Witness for C4 at a concrete state with `historyStep = 1`. -/
theorem redo_noop_after_undo_then_commit_witness :
    handleRedo (pushCommit (handleUndo c4State) []) = pushCommit (handleUndo c4State) [] ∧
    handleRedo (handleMouseUp (handleMouseDown (handleUndo c4State) 3 4 none "n")) =
      handleMouseUp (handleMouseDown (handleUndo c4State) 3 4 none "n") :=
  redo_noop_after_undo_then_commit c4State [] 3 4 "n" (by decide) rfl

/-- Erasing at any index removes at most one entry. -/
theorem length_eraseIdx_bounds {α : Type _} (l : List α) (i : Nat) :
    l.length - 1 ≤ (l.eraseIdx i).length ∧ (l.eraseIdx i).length ≤ l.length := by
  induction l generalizing i with
  | nil => simp [List.eraseIdx]
  | cons x xs ih =>
    cases i with
    | zero => simp [List.eraseIdx]
    | succ j =>
      have := ih j
      simp [List.eraseIdx]
      omega

/-- A sticky note tagged with layer index 1. -/
def orphanSticky : DrawElement :=
  { type := ElemType.sticky, id := some "b", x := some 50, y := some 50,
    width := some 200, height := some 200, layer := some 1 }

/-- Two layers, one element tagged with layer 1, active layer 0. -/
def c3State : WB :=
  { initWB with layers := ["Layer 1", "Layer 2"], elements := [orphanSticky] }

/-- C3 counterexample: with two layers and one element tagged `layer = 1`,
`deleteLayer 0` keeps the element (its tag differs from the deleted index)
but afterwards the only existing layer index is 0, so the surviving
element has a `layer` field referencing a non-existing index — the claimed
"every remaining element references a currently-existing
layer index" is false. -/
theorem deleteLayer_orphan_counterexample :
    2 ≤ c3State.layers.length ∧
    orphanSticky ∈ (deleteLayer c3State 0).elements ∧
    ¬ layerOf orphanSticky < (deleteLayer c3State 0).layers.length := by
  decide

/-- C3 amended: with at least two layers, `deleteLayer index` removes
exactly the elements tagged with that layer index (every survivor is an
original element whose tag differs from `index`, with its tag unchanged),
and the active layer pointer stays a valid index when it was valid before;
deleting the last remaining layer is rejected and changes nothing.
Surviving elements are NOT re-indexed, so a tag above the deleted index
may afterwards reference a non-existing layer index. -/
theorem deleteLayer_amended (s : WB) (i : Nat) :
    (2 ≤ s.layers.length →
      (∀ el, el ∈ (deleteLayer s i).elements ↔ el ∈ s.elements ∧ layerOf el ≠ i) ∧
      (s.currentLayer < s.layers.length →
        (deleteLayer s i).currentLayer < (deleteLayer s i).layers.length)) ∧
    (s.layers.length = 1 → deleteLayer s i = s) := by
  constructor
  · intro h2
    have hne : ¬ s.layers.length = 1 := by omega
    constructor
    · intro el
      unfold deleteLayer
      rw [if_neg hne]
      simp [List.mem_filter]
    · intro hcl
      have hb := length_eraseIdx_bounds s.layers i
      unfold deleteLayer
      rw [if_neg hne]
      dsimp only
      split <;> omega
  · intro h1
    unfold deleteLayer
    rw [if_pos h1]

/-- Witness for C3 at concrete inputs: the two-layer state above, and the
one-layer rejection at the initial state. -/
theorem deleteLayer_amended_witness :
    (orphanSticky ∈ (deleteLayer c3State 0).elements ↔
      orphanSticky ∈ c3State.elements ∧ layerOf orphanSticky ≠ 0) ∧
    deleteLayer initWB 0 = initWB :=
  ⟨((deleteLayer_amended c3State 0).1 (by decide)).1 orphanSticky,
   (deleteLayer_amended initWB 0).2 rfl⟩

/-- C5: with the select tool, any element returned by the pointer-down
scan is an `image` or `sticky` element on the active layer that the
pointer hits; the scan equals a single reverse-insertion-order search over
the whole element array restricted to active-layer image/sticky elements
(so the most recently inserted hit element wins, and an element tagged
with a non-active layer is never selected); and `handleMouseDown` records
exactly the found element as the selection. -/
theorem select_scan_topmost (s : WB) (px py : Int) (el : DrawElement)
    (hTool : s.tool = "select") (h : selectScan s px py = some el) :
    (el.type = ElemType.image ∨ el.type = ElemType.sticky) ∧
    layerOf el = s.currentLayer ∧
    hitBy px py el = true ∧
    selectScan s px py =
      s.elements.reverse.find? (fun e => qualifies s.currentLayer e && hitBy px py e) ∧
    (handleMouseDown s px py none "").selectedElement = some (el.id.getD "") := by
  have hmem : el ∈ (s.elements.filter (qualifies s.currentLayer)).reverse :=
    List.mem_of_find?_eq_some h
  rw [List.mem_reverse] at hmem
  have hq : qualifies s.currentLayer el = true := (List.mem_filter.mp hmem).2
  have hhit : hitBy px py el = true := List.find?_some h
  simp only [qualifies, Bool.and_eq_true, Bool.or_eq_true, decide_eq_true_eq] at hq
  refine ⟨hq.1, hq.2, hhit, ?_, ?_⟩
  · have hfun : (fun e => decide (qualifies s.currentLayer e = true ∧ hitBy px py e = true)) =
        (fun e => qualifies s.currentLayer e && hitBy px py e) := by
      funext e
      cases hq1 : qualifies s.currentLayer e <;> cases hh1 : hitBy px py e <;> simp
    unfold selectScan
    rw [← List.filter_reverse, List.find?_filter, hfun]
  · simp [handleMouseDown, hTool, h]

/-- Sticky note A, inserted first, active layer. -/
def stickyA : DrawElement :=
  { type := ElemType.sticky, id := some "a", x := some 100, y := some 100,
    width := some 200, height := some 200, layer := some 0 }

/-- Sticky note B, inserted second, overlapping A, same layer. -/
def stickyB : DrawElement :=
  { type := ElemType.sticky, id := some "b", x := some 150, y := some 150,
    width := some 200, height := some 200, layer := some 0 }

/-- Sticky note C, inserted last, overlapping both but on layer 1. -/
def stickyC : DrawElement :=
  { type := ElemType.sticky, id := some "c", x := some 100, y := some 100,
    width := some 200, height := some 200, layer := some 1 }

/-- Select tool active, layer 0 active, elements A then B then C. -/
def c5State : WB :=
  { initWB with tool := "select", elements := [stickyA, stickyB, stickyC], currentLayer := 0 }

/-- Witness for C5: a click at (200,200) in the A/B overlap selects B
(the later-inserted of the two active-layer stickies), skipping the
layer-1 sticky C even though C was inserted last. -/
theorem select_scan_topmost_witness :
    (stickyB.type = ElemType.image ∨ stickyB.type = ElemType.sticky) ∧
    layerOf stickyB = c5State.currentLayer ∧
    hitBy 200 200 stickyB = true ∧
    selectScan c5State 200 200 =
      c5State.elements.reverse.find?
        (fun e => qualifies c5State.currentLayer e && hitBy 200 200 e) ∧
    (handleMouseDown c5State 200 200 none "").selectedElement = some (stickyB.id.getD "") :=
  select_scan_topmost c5State 200 200 stickyB rfl (by decide)

/-- C6: on receipt of a broadcast `draw` message, the local element count
grows by exactly one, the appended element is exactly the payload that was
sent, and every previously present element is unchanged (the original
array is an unchanged prefix). -/
theorem receiveDraw_appends_payload (prevElements : List DrawElement) (payload : DrawElement) :
    (receiveDraw prevElements payload).length = prevElements.length + 1 ∧
    (receiveDraw prevElements payload).getLast? = some payload ∧
    (receiveDraw prevElements payload).take prevElements.length = prevElements := by
  refine ⟨?_, ?_, ?_⟩
  · simp [receiveDraw]
  · exact List.getLast?_concat prevElements
  · exact List.take_left prevElements [payload]

/-- C7: every renderer invocation repaints the full surface: the first
two operations are the clear and the background paint; every painted
element either lies on the active layer or is the in-progress element; the
per-element paints are exactly the active-layer elements in array
(insertion) order followed by the in-progress element; and when an
in-progress element exists it is painted last (on top of everything). -/
theorem redraw_full_repaint (es : List DrawElement) (cur : Option DrawElement) (cl : Nat) :
    (redrawCanvas es cur cl).take 2 = [PaintOp.clearOp, PaintOp.backgroundOp] ∧
    (∀ el, PaintOp.elemOp el ∈ redrawCanvas es cur cl → layerOf el = cl ∨ cur = some el) ∧
    (∀ el, el ∈ es → layerOf el = cl → PaintOp.elemOp el ∈ redrawCanvas es cur cl) ∧
    (redrawCanvas es cur cl).drop 2 =
      (es.filter (fun el => decide (layerOf el = cl))).map PaintOp.elemOp ++
        cur.toList.map PaintOp.elemOp ∧
    (∀ c, cur = some c → (redrawCanvas es cur cl).getLast? = some (PaintOp.elemOp c)) := by
  refine ⟨rfl, ?_, ?_, ?_, ?_⟩
  · intro el hmem
    simp only [redrawCanvas, List.mem_append, List.mem_cons, List.mem_singleton,
      List.mem_map, List.mem_filter, decide_eq_true_eq, Option.mem_toList,
      Option.mem_def, PaintOp.elemOp.injEq, reduceCtorEq, List.not_mem_nil,
      or_false, false_or] at hmem
    obtain ⟨a, ha, rfl⟩ := hmem
    tauto
  · intro el hel hl
    simp only [redrawCanvas, List.mem_append, List.mem_map, List.mem_filter,
      decide_eq_true_eq]
    exact Or.inr ⟨el, Or.inl ⟨hel, hl⟩, rfl⟩
  · show (es.filter (fun el => decide (layerOf el = cl)) ++ cur.toList).map PaintOp.elemOp = _
    exact List.map_append _ _ _
  · intro c hc
    subst hc
    show (([PaintOp.clearOp, PaintOp.backgroundOp] ++
      (es.filter (fun el => decide (layerOf el = cl)) ++ [c]).map PaintOp.elemOp)).getLast? = _
    rw [List.map_append, ← List.append_assoc]
    exact List.getLast?_concat _

/-- An in-progress freehand stroke. -/
def curStroke : DrawElement :=
  { type := ElemType.line, points := some [⟨0, 0⟩, ⟨1, 1⟩], layer := some 0 }

/-- Witness for C7 at a concrete render: active layer 0, one layer-0
sticky, one layer-1 sticky, and an in-progress stroke painted last. -/
theorem redraw_full_repaint_witness :
    (layerOf stickyA = 0 ∨ (some curStroke : Option DrawElement) = some stickyA) ∧
    PaintOp.elemOp stickyA ∈ redrawCanvas [stickyA, stickyC] (some curStroke) 0 ∧
    (redrawCanvas [stickyA, stickyC] (some curStroke) 0).getLast? =
      some (PaintOp.elemOp curStroke) :=
  ⟨(redraw_full_repaint [stickyA, stickyC] (some curStroke) 0).2.1 stickyA (by decide),
   (redraw_full_repaint [stickyA, stickyC] (some curStroke) 0).2.2.1 stickyA (by decide)
     (by decide),
   (redraw_full_repaint [stickyA, stickyC] (some curStroke) 0).2.2.2.2 curStroke rfl⟩

/-- C8: during a resize drag (select tool, mid-gesture, a resize handle
grabbed, the selected id resolving to an image/sticky element), the
width and height of the grabbed element are recomputed as
`max(50, cursor − origin)` per axis; in particular any cursor position
yielding a sub-50 (or negative) extent on an axis clamps that dimension to
exactly 50. -/
theorem resize_min_clamp (s : WB) (px py : Int) (sel : String) (e : DrawElement)
    (hTool : s.tool = "select") (hDraw : s.isDrawing = true)
    (hSel : s.selectedElement = some sel) (hSelNe : sel ≠ "")
    (hRH : truthyStr s.resizeHandle = true)
    (hFind : s.elements.find? (fun el => decide (el.id = some sel)) = some e)
    (hType : e.type = ElemType.image ∨ e.type = ElemType.sticky) :
    ∀ el ∈ s.elements, el.id = some sel →
      ∃ el' ∈ (handleMouseMove s px py).elements,
        el'.width = some (max 50 (px - el.x.getD 0)) ∧
        el'.height = some (max 50 (py - el.y.getD 0)) ∧
        (px - el.x.getD 0 ≤ 50 → el'.width = some 50) ∧
        (py - el.y.getD 0 ≤ 50 → el'.height = some 50) := by
  intro el hel hid
  have hcond : s.tool = "select" ∧ s.isDrawing = true ∧ truthyStr s.selectedElement = true :=
    ⟨hTool, hDraw, by rw [hSel]; simp [truthyStr, hSelNe]⟩
  have hgetD : s.selectedElement.getD "" = sel := by rw [hSel]; rfl
  have heq : handleMouseMove s px py =
      { s with elements := s.elements.map (fun el2 =>
          if el2.id = some sel then
            { el2 with
              width := some (max 50 (px - el2.x.getD 0)),
              height := some (max 50 (py - el2.y.getD 0)) }
          else el2) } := by
    unfold handleMouseMove
    rw [if_pos hcond, hgetD, hFind]
    dsimp only
    rw [if_pos hType, if_pos hRH]
  refine ⟨{ el with
      width := some (max 50 (px - el.x.getD 0)),
      height := some (max 50 (py - el.y.getD 0)) }, ?_, rfl, rfl, ?_, ?_⟩
  · rw [heq]
    exact List.mem_map.mpr ⟨el, hel, by rw [if_pos hid]⟩
  · intro hle
    simp [max_eq_left hle]
  · intro hle
    simp [max_eq_left hle]

/-- A selected sticky note at (100,100) sized 200×200. -/
def stickyS : DrawElement :=
  { type := ElemType.sticky, id := some "s", x := some 100, y := some 100,
    width := some 200, height := some 200, layer := some 0 }

/-- Mid resize gesture: select tool, drawing, handle grabbed on `stickyS`. -/
def c8State : WB :=
  { initWB with
    tool := "select", isDrawing := true, elements := [stickyS],
    selectedElement := some "s", resizeHandle := some "s" }

/-- Witness for C8: dragging the handle to (120, 400) yields a sub-50
horizontal extent (20), clamped to exactly 50, while the vertical extent
becomes 300. -/
theorem resize_min_clamp_witness :
    ∃ el' ∈ (handleMouseMove c8State 120 400).elements,
      el'.width = some (max 50 (120 - stickyS.x.getD 0)) ∧
      el'.height = some (max 50 (400 - stickyS.y.getD 0)) ∧
      (120 - stickyS.x.getD 0 ≤ 50 → el'.width = some 50) ∧
      (400 - stickyS.y.getD 0 ≤ 50 → el'.height = some 50) :=
  resize_min_clamp c8State 120 400 "s" stickyS rfl rfl rfl (by decide) (by decide)
    (by decide) (Or.inr rfl) stickyS (by decide) rfl

/-- C9: on pointer-down with the text tool, a cancelled or empty prompt
creates nothing — the whole state (Canvas State, history, cursor) is
unchanged; with the sticky tool the same empty prompt is accepted: a
sticky element with empty text body is appended and a history snapshot is
pushed (cursor advanced, new snapshot last in history). -/
theorem text_empty_rejected_sticky_empty_accepted (s : WB) (px py : Int)
    (newId : String) (promptRes : Option String)
    (hpr : promptRes = none ∨ promptRes = some "") :
    (s.tool = "text" → handleMouseDown s px py promptRes newId = s) ∧
    (s.tool = "sticky" →
      ∃ ne, (handleMouseDown s px py promptRes newId).elements = s.elements ++ [ne] ∧
        ne.type = ElemType.sticky ∧ ne.text = some "" ∧
        (handleMouseDown s px py promptRes newId).historyStep = s.historyStep + 1 ∧
        (handleMouseDown s px py promptRes newId).history.getLast? =
          some (handleMouseDown s px py promptRes newId).elements) := by
  have hget : promptRes.getD "" = "" := by
    rcases hpr with h | h <;> subst h <;> rfl
  have htr : truthyStr promptRes = false := by
    rcases hpr with h | h <;> subst h <;> rfl
  constructor
  · intro hT
    unfold handleMouseDown
    rw [hT]
    rw [if_neg (by decide), if_pos rfl, if_neg (by simp [htr])]
  · intro hT
    have heq : handleMouseDown s px py promptRes newId =
        pushCommit s (s.elements ++
          [{ type := ElemType.sticky, id := some newId, text := some (promptRes.getD ""),
             x := some px, y := some py, width := some 200, height := some 200,
             layer := some s.currentLayer }]) := by
      unfold handleMouseDown
      rw [hT]
      rw [if_neg (by decide), if_neg (by decide), if_pos rfl]
    rw [heq, hget]
    refine
      ⟨{ type := ElemType.sticky, id := some newId, text := some "",
         x := some px, y := some py, width := some 200, height := some 200,
         layer := some s.currentLayer }, rfl, rfl, rfl, rfl, ?_⟩
    exact List.getLast?_concat _

/-- The initial state with the text tool selected. -/
def c9TextState : WB := { initWB with tool := "text" }

/-- The initial state with the sticky tool selected. -/
def c9StickyState : WB := { initWB with tool := "sticky" }

/-- Witness for C9: an empty prompt result with the text tool changes
nothing; the same empty prompt with the sticky tool appends an empty-body
sticky and pushes a snapshot. -/
theorem text_empty_rejected_sticky_empty_accepted_witness :
    handleMouseDown c9TextState 5 5 (some "") "t1" = c9TextState ∧
    ∃ ne, (handleMouseDown c9StickyState 5 5 (some "") "t1").elements =
        c9StickyState.elements ++ [ne] ∧
      ne.type = ElemType.sticky ∧ ne.text = some "" ∧
      (handleMouseDown c9StickyState 5 5 (some "") "t1").historyStep =
        c9StickyState.historyStep + 1 ∧
      (handleMouseDown c9StickyState 5 5 (some "") "t1").history.getLast? =
        some (handleMouseDown c9StickyState 5 5 (some "") "t1").elements :=
  ⟨(text_empty_rejected_sticky_empty_accepted c9TextState 5 5 "t1" (some "")
      (Or.inr rfl)).1 rfl,
   (text_empty_rejected_sticky_empty_accepted c9StickyState 5 5 "t1" (some "")
      (Or.inr rfl)).2 rfl⟩

/-- A sticky note whose `x` is 0: drawn at the left edge with a 200×200
body, yet rejected by both hit testers. -/
def zeroSticky : DrawElement :=
  { type := ElemType.sticky, id := some "z", x := some 0, y := some 10,
    width := some 200, height := some 200, layer := some 0 }

/-- C10: an image/sticky element with a 0-valued `x`, `y`, `width` or
`height` fails both `isPointInImage` and `isPointInResizeHandle` for every
point (the JS falsiness guard rejects 0 like `undefined`), so the
select-tool scan can never return it — it cannot be selected, dragged or
resized even when the pointer is inside its drawn bounds. -/
theorem zero_field_never_hit (el : DrawElement) (px py : Int)
    (h : el.x = some 0 ∨ el.y = some 0 ∨ el.width = some 0 ∨ el.height = some 0) :
    isPointInImage px py el = false ∧ isPointInResizeHandle px py el = false ∧
    ∀ s : WB, selectScan s px py ≠ some el := by
  have hf : (falsyNum el.x || falsyNum el.y || falsyNum el.width || falsyNum el.height) = true := by
    rcases h with h | h | h | h <;> simp [falsyNum, h]
  have h1 : isPointInImage px py el = false := by
    unfold isPointInImage
    rw [if_pos hf]
  have h2 : isPointInResizeHandle px py el = false := by
    unfold isPointInResizeHandle
    rw [if_pos hf]
  refine ⟨h1, h2, ?_⟩
  intro s hscan
  have hhit := List.find?_some hscan
  rw [hitBy, h1, h2] at hhit
  simp at hhit

/-- Witness for C10: the pointer (50, 50) lies inside the drawn
200×200 body of `zeroSticky`, yet both hit tests fail and no scan returns it. -/
theorem zero_field_never_hit_witness :
    isPointInImage 50 50 zeroSticky = false ∧
    isPointInResizeHandle 50 50 zeroSticky = false ∧
    ∀ s : WB, selectScan s 50 50 ≠ some zeroSticky :=
  zero_field_never_hit zeroSticky 50 50 (Or.inl rfl)

end Whiteboard
